import Mathlib

/-!
Verification of the my-ai-universe explorer engine against its
specification.  The engine lives in two Python source files,
src/app.py and src/niverse_explorer.py; both define a class
UniverseDataExplorer holding an in-memory universe mapping
(domain name to entity key to attribute record), a rolling insight
list and an exploration-state record.

Modelling conventions:
* Python numbers are rationals; attribute records (Python dicts) are
  association lists over a scalar value type.  Entities whose numeric
  attributes hold non-numeric values (such as a null price) are outside
  the model.
* Formatted description strings are modelled by an inductive Msg type
  carrying the data that the Python f-string interpolates, so no
  information is dropped by the embedding.
* Upstream HTTP fetches are external input and appear as parameters of
  Except type: an error value stands for the exception a failed fetch
  raises inside the corresponding discovery routine.
* Python list.sort is a stable sort; it is modelled by a stable
  insertion sort on the same key.
-/

deriving instance DecidableEq for Except

/-- The literal 0.01 of the cheap-gems price band in src/app.py,
written as an explicitly reduced fraction so that it evaluates by
kernel reduction (see the lemma q001_eq below for its value). -/
def q001 : ℚ := Rat.mk' 1 100 (by decide) (Nat.coprime_one_left 100)

/-- The literal 0.5 used for concrete percent-change inputs, written
as an explicitly reduced fraction for the same reason. -/
def qHalf : ℚ := Rat.mk' 1 2 (by decide) (Nat.coprime_one_left 2)

/-- A 4-tuple as stored in the mover lists of src/app.py
(two strings followed by two numbers; the meaning of the numeric
slots differs per list, matching the Python tuples). -/
structure Tup4 where
  a : String
  b : String
  c : ℚ
  d : ℚ
deriving DecidableEq

/-- The data interpolated into a formatted insight description or
recommendation string.  Each constructor corresponds to one f-string
in the source and carries exactly the values the source interpolates. -/
inductive Msg where
  | topGainers : List Tup4 → Msg
  | considerResearch : ℕ → Msg
  | topLosers : List Tup4 → Msg
  | cheapGems : List Tup4 → Msg
  | blueChips : List Tup4 → Msg
  | expensiveCoins : List Tup4 → Msg
  | marketSentiment : String → ℚ → ℕ → ℕ → Msg
  | marketAdjust : String → Msg
  | volatilityAlert : List Tup4 → Msg
  | discoverySummary : ℕ → ℕ → ℕ → Msg
  | realTimeData : ℕ → Msg
  | fallbackStatus : ℕ → Msg
  | detectedMovers : ℕ → Msg
  | universeSpans : List String → Msg
deriving DecidableEq

/-- A scalar Python value as stored in an insight record or an entity
attribute record: a string, a number, a formatted message string, a
list of 4-tuples, a list of (symbol, change) pairs, or the empty dict
used as the default of insight.get applied to the details key. -/
inductive Val where
  | str : String → Val
  | rat : ℚ → Val
  | msg : Msg → Val
  | movers : List Tup4 → Val
  | pairs : List (String × ℚ) → Val
  | emptyDict : Val
deriving DecidableEq

/-- A Python dict with string keys, as an association list. -/
abbrev PyDict := List (String × Val)

/-- Python d.get(k): the first value stored under key k, if any. -/
def lookupV (d : PyDict) (k : String) : Option Val :=
  (d.find? (fun p => p.1 == k)).map Prod.snd

/-- Python d.get(k, v): lookup with a default. -/
def getVD (d : PyDict) (k : String) (v : Val) : Val :=
  (lookupV d k).getD v

/-- Numeric attribute access d.get(k, q) where the stored value is a
number; a record storing a non-number under k is outside the model. -/
def getRat (d : PyDict) (k : String) (q : ℚ) : ℚ :=
  match lookupV d k with
  | some (Val.rat x) => x
  | _ => q

/-- String attribute access d.get(k, s) where the stored value is a
string. -/
def getStr (d : PyDict) (k : String) (s : String) : String :=
  match lookupV d k with
  | some (Val.str x) => x
  | _ => s

/-- The universe mapping: domain name to (entity key to attribute
record), an insertion-ordered dict of dicts. -/
abbrev Universe := List (String × List (String × PyDict))

/-- Python self.data_universe.get(domain, \x7b\x7d) (also the defaultdict
read used during iteration): the entity dict of a domain, or empty. -/
def univGet (u : Universe) (d : String) : List (String × PyDict) :=
  ((u.find? (fun p => p.1 == d)).map Prod.snd).getD []

/-- Python dict assignment self.data_universe[d] = m: replace the entry
in place when the key exists, append it otherwise. -/
def univSet (u : Universe) (d : String) (m : List (String × PyDict)) : Universe :=
  if u.any (fun p => p.1 == d) then
    u.map (fun p => if p.1 == d then (d, m) else p)
  else u ++ [(d, m)]

/-- get_total_entities (same body in both source files): the sum over
all domains of the number of entities in that domain. -/
def get_total_entities (u : Universe) : ℕ :=
  (u.map (fun p => p.2.length)).sum

/-- Python string lowering: the character list of a string, lowered
character by character (str.lower on the ASCII data at hand). -/
def pyLower (s : String) : List Char :=
  s.data.map Char.toLower

/-- Auxiliary for the substring test: needle is a prefix of hay. -/
def pyStartsWith : List Char → List Char → Bool
  | [], _ => true
  | _ :: _, [] => false
  | a :: as, b :: bs => a == b && pyStartsWith as bs

/-- Python needle in hay on lowered character lists: some suffix of hay
starts with needle. -/
def pyIn (n : List Char) : List Char → Bool
  | [] => n.isEmpty
  | c :: t => pyStartsWith n (c :: t) || pyIn n t

/-- Python list slice l[-n:] : the suffix of the last n elements
(the whole list when it is shorter than n). -/
def pyLastN (n : ℕ) (l : List α) : List α :=
  l.drop (l.length - n)

/-- A guarded rational division: Python raises ZeroDivisionError on a
zero denominator, modelled as the error case. -/
def pyDiv (a b : ℚ) : Except String ℚ :=
  if b = 0 then Except.error "ZeroDivisionError" else Except.ok (a / b)

/-- The floor of a rational as floor division of numerator by
denominator. -/
def ratFloor (q : ℚ) : ℤ :=
  Int.fdiv q.num q.den

/-- Round half to even on rationals, the tie rule of Python round. -/
def pyRoundInt (q : ℚ) : ℤ :=
  let f := ratFloor q
  let r := q - (f : ℚ)
  if r < 1/2 then f
  else if 1/2 < r then f + 1
  else if f % 2 = 0 then f else f + 1

/-- Python round(q, 1): round to one decimal place, ties to even. -/
def pyRound1 (q : ℚ) : ℚ :=
  (pyRoundInt (q * 10) : ℚ) / 10

/-- One element of Python stable insertion: x is placed before the
first element strictly greater than it under lt, so equal elements
keep their original relative order, as Python list.sort guarantees. -/
def pyInsert (lt : α → α → Bool) (x : α) : List α → List α
  | [] => [x]
  | y :: ys => if lt y x then y :: pyInsert lt x ys else x :: y :: ys

/-- Python list.sort(key, reverse) as a stable insertion sort; lt is
the strict comparison induced by the key (reversed for reverse=True). -/
def pySort (lt : α → α → Bool) : List α → List α
  | [] => []
  | x :: xs => pyInsert lt x (pySort lt xs)

/-- The payload of one search match: a name match carries the full
attribute record under a details key, an attribute match carries the
matched string under a match_value key. -/
inductive MatchPayload where
  | details : PyDict → MatchPayload
  | value : Val → MatchPayload
deriving DecidableEq

/-- One match record produced by the universal search. -/
structure SearchMatch where
  entity : String
  match_type : String
  payload : MatchPayload
deriving DecidableEq

/-- The search-result record of _universal_search. -/
structure SearchResults where
  search_term : String
  results_by_domain : List (String × List SearchMatch)
  total_matches : ℕ
  timestamp : String
deriving DecidableEq

/-- The per-entity step of _universal_search: a case-insensitive
substring match on the entity key yields a name match; otherwise the
first string-valued attribute containing the term yields a match on
that attribute key (the break after the first hit); otherwise no
match for this entity. -/
def matchEntity (searchLower : List Char) (entity : String) (d : PyDict) :
    Option SearchMatch :=
  if pyIn searchLower (pyLower entity) then
    some ⟨entity, "name", MatchPayload.details d⟩
  else
    match d.find? (fun p =>
        match p.2 with
        | Val.str s => pyIn searchLower (pyLower s)
        | _ => false) with
    | some (k, v) => some ⟨entity, k, MatchPayload.value v⟩
    | none => none

/-- The domain_matches list built by the domain loop of
_universal_search: the per-entity matches of one domain, in entity
order. -/
def domainMatches (searchLower : List Char)
    (dents : List (String × PyDict)) : List SearchMatch :=
  dents.filterMap (fun e => matchEntity searchLower e.1 e.2)

/-- The fold step of _universal_search over one domain: append the
domain and bump the running total only when the domain produced at
least one match. -/
def searchStep (searchLower : List Char)
    (acc : List (String × List SearchMatch) × ℕ)
    (p : String × List (String × PyDict)) :
    List (String × List SearchMatch) × ℕ :=
  let dm := domainMatches searchLower p.2
  if dm.isEmpty then acc else (acc.1 ++ [(p.1, dm)], acc.2 + dm.length)

/-- The method _universal_search, with identical bodies in
src/app.py and src/niverse_explorer.py: a linear scan over every
domain and entity, grouped by domain with a running total. -/
def universal_search (u : Universe) (term : String) (t : String) :
    SearchResults :=
  let sl := pyLower term
  let r := u.foldl (searchStep sl) ([], 0)
  ⟨term, r.1, r.2, t⟩

/-- The results_by_domain mapping that the search fold produces:
one entry per domain with a non-empty match list, in domain order. -/
def searchRBD (sl : List Char) (u : Universe) :
    List (String × List SearchMatch) :=
  u.filterMap (fun p =>
    if (domainMatches sl p.2).isEmpty then none
    else some (p.1, domainMatches sl p.2))

/-- The body of the loop in get_recent_insights: each stored insight
dict is re-serialized as a dict with exactly the keys category,
description, timestamp and details, read from the stored keys type,
description, timestamp and details with the defaults of the source. -/
def serializeInsight (i : PyDict) : PyDict :=
  [("category", getVD i "type" (Val.str "general")),
   ("description", getVD i "description" (Val.str "")),
   ("timestamp", getVD i "timestamp" (Val.str "")),
   ("details", getVD i "details" Val.emptyDict)]

/-- The method get_recent_insights (same body in both source files):
the slice insights[-limit:] mapped through the serialization above;
the route GET /insights calls it with the default limit 10. -/
def get_recent_insights (insights : List PyDict) (limit : ℕ := 10) :
    List PyDict :=
  (pyLastN limit insights).map serializeInsight

/-- The per-domain statistics record of get_universe_status. -/
structure DomainStat where
  total_entities : ℕ
  sample_entities : List String
deriving DecidableEq

/-- The exploration_state record: total_discoveries, universe_size and
the last_update timestamp. -/
structure ExplorationRecord where
  total_discoveries : ℕ
  universe_size : ℕ
  last_update : ℚ
deriving DecidableEq

/-- The snapshot returned by get_universe_status. -/
structure UniverseStatus where
  universe_statistics : List (String × DomainStat)
  total_discoveries : ℕ
  autonomous_insights : ℕ
  exploration_state : ExplorationRecord
  timestamp : String
deriving DecidableEq

/-- The method get_universe_status (same body in both source files):
per-domain entity count with up to three sample keys, the overall
entity count, the insight count and the exploration-state record. -/
def get_universe_status (u : Universe) (insights : List PyDict)
    (es : ExplorationRecord) (t : String) : UniverseStatus :=
  ⟨u.map (fun p => (p.1, ⟨p.2.length, (p.2.map Prod.fst).take 3⟩)),
   get_total_entities u, insights.length, es, t⟩

/-- The result record built by autonomous_universe_exploration. -/
structure ExplorationResults where
  new_discoveries : ℕ
  patterns_found : ℕ
  insights_generated : ℕ
  timestamp : String
deriving DecidableEq

namespace App

/-- The shorthand data.get(current_price, 0) of the classification
loop in the module-level _generate_autonomous_insights of src/app.py. -/
def priceOf (d : PyDict) : ℚ := getRat d "current_price" 0

/-- The shorthand data.get(price_change_24h, 0) of the same loop. -/
def changeOf (d : PyDict) : ℚ := getRat d "price_change_24h" 0

/-- The shorthand data.get(market_cap, 0) of the same loop. -/
def mcapOf (d : PyDict) : ℚ := getRat d "market_cap" 0

/-- The shorthand data.get(name, symbol) of the same loop. -/
def nameOf (symbol : String) (d : PyDict) : String := getStr d "name" symbol

/-- The gainers list of the classification loop: entities whose
24h change exceeds 10, as tuples (name, symbol, round(change, 1),
price), in iteration order. -/
def gainersOf (fd : List (String × PyDict)) : List Tup4 :=
  (fd.filter (fun p => changeOf p.2 > 10)).map
    (fun p => ⟨nameOf p.1 p.2, p.1, pyRound1 (changeOf p.2), priceOf p.2⟩)

/-- The losers list: entities whose 24h change is below -10, as tuples
(name, symbol, round(change, 1), price). -/
def losersOf (fd : List (String × PyDict)) : List Tup4 :=
  (fd.filter (fun p => changeOf p.2 < -10)).map
    (fun p => ⟨nameOf p.1 p.2, p.1, pyRound1 (changeOf p.2), priceOf p.2⟩)

/-- The high_volume list: entities with a truthy market cap above one
billion, as tuples (name, symbol, price, market_cap). -/
def highVolumeOf (fd : List (String × PyDict)) : List Tup4 :=
  (fd.filter (fun p => mcapOf p.2 ≠ 0 ∧ mcapOf p.2 > 1000000000)).map
    (fun p => ⟨nameOf p.1 p.2, p.1, priceOf p.2, mcapOf p.2⟩)

/-- The cheap_gems list: entities with a truthy price between 0.01 and
1.0 and a change above 5, as tuples (name, symbol, price,
round(change, 1)). -/
def cheapGemsOf (fd : List (String × PyDict)) : List Tup4 :=
  (fd.filter (fun p =>
      priceOf p.2 ≠ 0 ∧ q001 ≤ priceOf p.2 ∧ priceOf p.2 ≤ 1 ∧
      changeOf p.2 > 5)).map
    (fun p => ⟨nameOf p.1 p.2, p.1, priceOf p.2, pyRound1 (changeOf p.2)⟩)

/-- The expensive_coins list: entities with a truthy price above 100,
as tuples (name, symbol, price, round(change, 1)). -/
def expensiveOf (fd : List (String × PyDict)) : List Tup4 :=
  (fd.filter (fun p => priceOf p.2 ≠ 0 ∧ priceOf p.2 > 100)).map
    (fun p => ⟨nameOf p.1 p.2, p.1, priceOf p.2, pyRound1 (changeOf p.2)⟩)

/-- The high_volatility list of the volatility loop: entities whose
absolute change exceeds 20, as tuples (name, symbol, abs change,
price). -/
def highVolatilityOf (fd : List (String × PyDict)) : List Tup4 :=
  (fd.filter (fun p => |changeOf p.2| > 20)).map
    (fun p => ⟨nameOf p.1 p.2, p.1, |changeOf p.2|, priceOf p.2⟩)

/-- The top_gainers insight record (keys type, description, actionable,
data, timestamp as in the source). -/
def mkGainersInsight (topG : List Tup4) (t : String) : PyDict :=
  [("type", Val.str "top_gainers"),
   ("description", Val.msg (Msg.topGainers topG)),
   ("actionable", Val.msg (Msg.considerResearch topG.length)),
   ("data", Val.movers topG),
   ("timestamp", Val.str t)]

/-- The potential_opportunities insight record. -/
def mkLosersInsight (topL : List Tup4) (t : String) : PyDict :=
  [("type", Val.str "potential_opportunities"),
   ("description", Val.msg (Msg.topLosers topL)),
   ("actionable",
    Val.str "Research if drops are temporary or fundamental issues"),
   ("data", Val.movers topL),
   ("timestamp", Val.str t)]

/-- The cheap_gems insight record. -/
def mkGemsInsight (gems : List Tup4) (t : String) : PyDict :=
  [("type", Val.str "cheap_gems"),
   ("description", Val.msg (Msg.cheapGems gems)),
   ("actionable",
    Val.str "Low-price coins with upward momentum - research fundamentals"),
   ("data", Val.movers gems),
   ("timestamp", Val.str t)]

/-- The blue_chip_analysis insight record. -/
def mkBlueChipInsight (chips : List Tup4) (t : String) : PyDict :=
  [("type", Val.str "blue_chip_analysis"),
   ("description", Val.msg (Msg.blueChips chips)),
   ("actionable",
    Val.str "Stable large-cap coins for conservative portfolio allocation"),
   ("data", Val.movers chips),
   ("timestamp", Val.str t)]

/-- The high_value_watch insight record. -/
def mkExpensiveInsight (exp : List Tup4) (t : String) : PyDict :=
  [("type", Val.str "high_value_watch"),
   ("description", Val.msg (Msg.expensiveCoins exp)),
   ("actionable",
    Val.str "Premium coins - track for institutional adoption signals"),
   ("data", Val.movers exp),
   ("timestamp", Val.str t)]

/-- The market_sentiment insight record; its structured payload is the
sentiment label stored under the key sentiment, not under data. -/
def mkSentimentInsight (sentiment : String) (pctUp : ℚ)
    (pos neg : ℕ) (t : String) : PyDict :=
  [("type", Val.str "market_sentiment"),
   ("description", Val.msg (Msg.marketSentiment sentiment pctUp pos neg)),
   ("actionable", Val.msg (Msg.marketAdjust sentiment)),
   ("sentiment", Val.str sentiment),
   ("timestamp", Val.str t)]

/-- The volatility_alert insight record. -/
def mkVolatilityInsight (vol : List Tup4) (t : String) : PyDict :=
  [("type", Val.str "volatility_alert"),
   ("description", Val.msg (Msg.volatilityAlert vol)),
   ("actionable",
    Val.str "Extreme volatility detected - high risk/reward potential"),
   ("data", Val.movers vol),
   ("timestamp", Val.str t)]

/-- The discovery_summary insight record appended at the end of every
generation cycle, outside the financial branch. -/
def mkSummaryInsight (u : Universe) (t : String) : PyDict :=
  [("type", Val.str "discovery_summary"),
   ("description",
    Val.msg (Msg.discoverySummary (univGet u "financial").length
      (univGet u "news").length (univGet u "research").length)),
   ("actionable", Val.msg (Msg.realTimeData (univGet u "financial").length)),
   ("timestamp", Val.str t)]

/-- The fallback system_status insight appended by the except branch of
_generate_autonomous_insights. -/
def mkFallbackInsight (u : Universe) (t : String) : PyDict :=
  [("type", Val.str "system_status"),
   ("description", Val.msg (Msg.fallbackStatus (get_total_entities u))),
   ("actionable",
    Val.str "Data collection in progress - check back for detailed analysis"),
   ("timestamp", Val.str t)]

/-- The count total_positive of the market-temperature step: entities
of the financial domain with a positive 24h change. -/
def totalPositiveOf (fd : List (String × PyDict)) : ℕ :=
  (fd.filter (fun p => changeOf p.2 > 0)).length

/-- The count total_negative of the market-temperature step. -/
def totalNegativeOf (fd : List (String × PyDict)) : ℕ :=
  (fd.filter (fun p => changeOf p.2 < 0)).length

/-- The insight records of the financial branch given the fraction
produced by the market-temperature division: the five conditional
mover insights, the unconditional sentiment insight and the
conditional volatility alert, in the append order of the source. -/
def financialList (fd : List (String × PyDict)) (t : String)
    (frac : ℚ) : List PyDict :=
  let gainers := pySort (fun x y => x.c > y.c) (gainersOf fd)
  let losers := pySort (fun x y => x.c < y.c) (losersOf fd)
  let highVolume := pySort (fun x y => x.d > y.d) (highVolumeOf fd)
  let cheapGems := pySort (fun x y => x.d > y.d) (cheapGemsOf fd)
  let expensive := pySort (fun x y => x.c > y.c) (expensiveOf fd)
  let vol := pySort (fun x y => x.c > y.c) (highVolatilityOf fd)
  let sentiment :=
    if totalPositiveOf fd > totalNegativeOf fd then "BULLISH" else "BEARISH"
  (if gainers.isEmpty then [] else [mkGainersInsight (gainers.take 5) t]) ++
  (if losers.isEmpty then [] else [mkLosersInsight (losers.take 3) t]) ++
  (if cheapGems.isEmpty then [] else [mkGemsInsight (cheapGems.take 3) t]) ++
  (if highVolume.isEmpty then [] else
    [mkBlueChipInsight (highVolume.take 5) t]) ++
  (if expensive.isEmpty then [] else
    [mkExpensiveInsight (expensive.take 3) t]) ++
  [mkSentimentInsight sentiment (frac * 100)
    (totalPositiveOf fd) (totalNegativeOf fd) t] ++
  (if vol.isEmpty then [] else [mkVolatilityInsight (vol.take 3) t])

/-- The financial branch of _generate_autonomous_insights in
src/app.py: classify, sort, and build the up to seven insight records
appended when the financial domain is non-empty.  The division inside
the market-temperature step is the only failing operation of the
branch; on its error the insights built before it are discarded
together, which is observationally equal to the source because the
division in fact never fails (the financial dict is non-empty here). -/
def financialInsights (fd : List (String × PyDict)) (t : String) :
    Except String (List PyDict) :=
  match pyDiv (totalPositiveOf fd : ℚ) (fd.length : ℚ) with
  | Except.error e => Except.error e
  | Except.ok frac => Except.ok (financialList fd t frac)

/-- The try-block body of _generate_autonomous_insights after the
trimming step: the financial branch when the financial domain is
truthy, then the unconditional discovery summary. -/
def insightsCore (u : Universe) (t : String) : Except String (List PyDict) :=
  let fd := univGet u "financial"
  if fd.isEmpty then Except.ok [mkSummaryInsight u t]
  else
    match financialInsights fd t with
    | Except.error e => Except.error e
    | Except.ok fin => Except.ok (fin ++ [mkSummaryInsight u t])

/-- The module-level _generate_autonomous_insights of src/app.py as a
transformer of the insight list: first the trim (keep the last 8 when
the list holds more than 15), then the generated insights of this
cycle, or the single fallback insight when generation raises. -/
def generate_autonomous_insights (u : Universe) (t : String)
    (insights : List PyDict) : List PyDict :=
  let trimmed := if insights.length > 15 then pyLastN 8 insights else insights
  match insightsCore u t with
  | Except.ok l => trimmed ++ l
  | Except.error _ => trimmed ++ [mkFallbackInsight u t]

end App

namespace App

/-- The method names defined inside the class UniverseDataExplorer of
src/app.py (all with four-space indentation under the class statement,
lines 11 through 137). -/
def classMethodNames : List String :=
  ["__init__", "_bootstrap_universe", "_discover_crypto_universe",
   "_discover_news_universe", "_discover_research_universe",
   "autonomous_universe_exploration"]

/-- The function names defined at column zero of the module src/app.py
(outside any class); _generate_autonomous_insights appears here, at
line 139, because its def statement is not indented under the class. -/
def moduleLevelDefNames : List String :=
  ["_generate_autonomous_insights", "continuous_exploration", "dashboard",
   "status", "insights", "search", "trigger_exploration"]

/-- The function names whose def statements are indented four spaces
under the module-level _generate_autonomous_insights of src/app.py, so
they are nested helper functions of it rather than methods. -/
def nestedInGenerateNames : List String :=
  ["_universal_search", "get_universe_status", "get_recent_insights",
   "get_total_entities"]

/-- Python attribute lookup on an instance of the src/app.py class:
a name resolves if and only if it is a method of the class (the
instance data attributes are not consulted here because bootstrap only
looks up methods); otherwise an AttributeError is raised.  Names that
are module-level or nested functions are not attributes of the class. -/
def getMethod (name : String) : Except String Unit :=
  if name ∈ classMethodNames then Except.ok ()
  else Except.error
    ("AttributeError: UniverseDataExplorer object has no attribute " ++ name)

/-- The attribute lookups performed by constructing UniverseDataExplorer
in src/app.py, in order: init calls _bootstrap_universe, which calls
the three discovery methods and then evaluates
self.get_total_entities() inside its completion message.  The model
stops at the first failing lookup, as Python does. -/
def constructExplorer : Except String Unit :=
  match getMethod "_bootstrap_universe" with
  | Except.error e => Except.error e
  | Except.ok _ =>
  match getMethod "_discover_crypto_universe" with
  | Except.error e => Except.error e
  | Except.ok _ =>
  match getMethod "_discover_news_universe" with
  | Except.error e => Except.error e
  | Except.ok _ =>
  match getMethod "_discover_research_universe" with
  | Except.error e => Except.error e
  | Except.ok _ => getMethod "get_total_entities"

/-- The module-level statement explorer = UniverseDataExplorer() at
line 427 of src/app.py: module initialization completes only if the
construction does. -/
def moduleInit : Except String Unit := constructExplorer

end App

namespace Niverse

/-- The instance state of the class UniverseDataExplorer of
src/niverse_explorer.py, with the fields assigned by init. -/
structure ExplorerState where
  data_universe : Universe
  autonomous_insights : List PyDict
  exploration_history : List Val
  pattern_memory : List (String × ℚ)
  world_pattern_memory : List (String × ℚ)
  exploration_state : ExplorationRecord
deriving DecidableEq

/-- The field values assigned by init before bootstrap runs: empty
collections and an exploration-state record with zero counts and the
construction-time timestamp. -/
def initState (t0 : ℚ) : ExplorerState :=
  ⟨[], [], [], [], [], ⟨0, 0, t0⟩⟩

/-- The method _discover_crypto_universe: the whole body sits in a
try block, so a failed upstream fetch (the error case of the outcome
parameter) leaves the state untouched; a successful fetch replaces the
financial domain wholesale with the dict built from the pages. -/
def discover_crypto_universe (outcome : Except String (List (String × PyDict)))
    (s : ExplorerState) : ExplorerState :=
  match outcome with
  | Except.ok d => { s with data_universe := univSet s.data_universe "financial" d }
  | Except.error _ => s

/-- The method _discover_news_universe, with the same catch-all try
block over the feed fetch loop. -/
def discover_news_universe (outcome : Except String (List (String × PyDict)))
    (s : ExplorerState) : ExplorerState :=
  match outcome with
  | Except.ok d => { s with data_universe := univSet s.data_universe "news" d }
  | Except.error _ => s

/-- The method _discover_research_universe, with the same catch-all
try block over the category query loop. -/
def discover_research_universe (outcome : Except String (List (String × PyDict)))
    (s : ExplorerState) : ExplorerState :=
  match outcome with
  | Except.ok d => { s with data_universe := univSet s.data_universe "research" d }
  | Except.error _ => s

/-- The method _bootstrap_universe: the three discovery routines in
sequence; its completion message then reads get_total_entities, a pure
read.  No exception escapes any routine, so the function is total. -/
def bootstrap_universe (cf nf rf : Except String (List (String × PyDict)))
    (s : ExplorerState) : ExplorerState :=
  discover_research_universe rf
    (discover_news_universe nf (discover_crypto_universe cf s))

/-- Constructing UniverseDataExplorer in src/niverse_explorer.py:
init assigns the empty fields and then runs bootstrap with the three
upstream outcomes. -/
def mkExplorer (cf nf rf : Except String (List (String × PyDict)))
    (t0 : ℚ) : ExplorerState :=
  bootstrap_universe cf nf rf (initState t0)

/-- The big_movers list of _generate_autonomous_insights in
src/niverse_explorer.py: entities of the financial domain whose
absolute 24h change exceeds 10, as (symbol, change) pairs. -/
def bigMoversOf (fd : List (String × PyDict)) : List (String × ℚ) :=
  (fd.filter (fun p => |getRat p.2 "price_change_24h" 0| > 10)).map
    (fun p => (p.1, getRat p.2 "price_change_24h" 0))

/-- The market_movement insight record of src/niverse_explorer.py,
whose structured payload sits under the key details (the top five
movers). -/
def mkMarketMovementInsight (bm : List (String × ℚ)) (t : String) : PyDict :=
  [("type", Val.str "market_movement"),
   ("description", Val.msg (Msg.detectedMovers bm.length)),
   ("details", Val.pairs (bm.take 5)),
   ("timestamp", Val.str t)]

/-- The cross_domain_analysis insight record of
src/niverse_explorer.py. -/
def mkCrossDomainInsight (domains : List String) (total : ℕ)
    (t : String) : PyDict :=
  [("type", Val.str "cross_domain_analysis"),
   ("description", Val.msg (Msg.universeSpans domains)),
   ("entity_count", Val.rat (total : ℚ)),
   ("timestamp", Val.str t)]

/-- The method _generate_autonomous_insights of
src/niverse_explorer.py: append the market-movement insight when the
financial domain is truthy and has big movers, then the cross-domain
insight when more than one domain exists.  The body contains no
failing operation in the model, so the surrounding try block never
fires. -/
def generate_autonomous_insights (s : ExplorerState) (t : String) :
    ExplorerState :=
  let fd := univGet s.data_universe "financial"
  let bm := bigMoversOf fd
  let ins1 :=
    if fd.isEmpty then s.autonomous_insights
    else if bm.isEmpty then s.autonomous_insights
    else s.autonomous_insights ++ [mkMarketMovementInsight bm t]
  let domains := s.data_universe.map Prod.fst
  let ins2 :=
    if domains.length > 1 then
      ins1 ++ [mkCrossDomainInsight domains (get_total_entities s.data_universe) t]
    else ins1
  { s with autonomous_insights := ins2 }

/-- The public method autonomous_universe_exploration of
src/niverse_explorer.py: regenerate insights from the cached domain
data, then overwrite total_discoveries and last_update in the
exploration-state record, and return the result record reporting the
insight count.  It performs no upstream fetch: its only inputs are the
current state, the formatted timestamp and the clock value. -/
def autonomous_universe_exploration (s : ExplorerState) (t : String)
    (now : ℚ) : ExplorerState × ExplorationResults :=
  let s1 := generate_autonomous_insights s t
  let s2 := { s1 with exploration_state :=
    { s1.exploration_state with
      total_discoveries := get_total_entities s1.data_universe,
      last_update := now } }
  (s2, ⟨0, 0, s2.autonomous_insights.length, t⟩)

end Niverse

/-- The body of a JSON response of the GET /explore route handler of
src/app.py. -/
inductive ExploreBody where
  | success : ExplorationResults → ExploreBody
  | failure : String → ExploreBody
deriving DecidableEq

/-- An HTTP response as produced by the handler: a status code and a
JSON body. -/
structure HttpResponse where
  status : ℕ
  body : ExploreBody
deriving DecidableEq

/-- The GET /explore handler trigger_exploration of src/app.py: the
refresh call sits in a try block; a returned result is wrapped as a
success payload, an exception is caught and wrapped as an error
payload; jsonify serves both with the default HTTP status 200. -/
def trigger_exploration (outcome : Except String ExplorationResults) :
    HttpResponse :=
  match outcome with
  | Except.ok r => ⟨200, ExploreBody.success r⟩
  | Except.error e => ⟨200, ExploreBody.failure e⟩

/-- Modelled from the spec: the stability classification of section
4.3 (count of entities with absolute percent change below a low
threshold, reported only above a minimum count) appears in no source
file under src/; the spec gives no numeric thresholds, so the low
threshold is taken as 5 here. -/
def stableCount (fd : List (String × PyDict)) : ℕ :=
  (fd.filter (fun p => |App.changeOf p.2| < 5)).length

/-- A concrete crypto entity record with change 12 percent, price 1
and a market cap above one billion: simultaneously a gainer, a cheap
gem and a blue chip. -/
def entA : PyDict :=
  [("name", Val.str "Alpha"), ("current_price", Val.rat 1),
   ("market_cap", Val.rat 2000000000), ("price_change_24h", Val.rat 12),
   ("discovered_at", Val.str "d"), ("type", Val.str "cryptocurrency")]

/-- A concrete crypto entity record with change -11 percent and price
150: simultaneously a loser and a high-value coin. -/
def entB : PyDict :=
  [("name", Val.str "Beta"), ("current_price", Val.rat 150),
   ("market_cap", Val.rat 500000000), ("price_change_24h", Val.rat (-11)),
   ("discovered_at", Val.str "d"), ("type", Val.str "cryptocurrency")]

/-- A universe whose financial domain holds entA and entB, so that one
generation cycle appends exactly seven insights (gainers, losers,
cheap gems, blue chips, high value, sentiment, summary; no volatility
alert since both absolute changes stay below 20). -/
def u7 : Universe := [("financial", [("ALPHA-USD", entA), ("BETA-USD", entB)])]

/-- The four-entity financial domain of the stability test: percent
changes 12, -11, 1 and 0.5, all with price 50 and no market cap. -/
def ent1 : PyDict :=
  [("name", Val.str "Ent1"), ("current_price", Val.rat 50),
   ("market_cap", Val.rat 0), ("price_change_24h", Val.rat 12),
   ("type", Val.str "cryptocurrency")]

/-- The second entity of the stability test, change -11. -/
def ent2 : PyDict :=
  [("name", Val.str "Ent2"), ("current_price", Val.rat 50),
   ("market_cap", Val.rat 0), ("price_change_24h", Val.rat (-11)),
   ("type", Val.str "cryptocurrency")]

/-- The third entity of the stability test, change 1. -/
def ent3 : PyDict :=
  [("name", Val.str "Ent3"), ("current_price", Val.rat 50),
   ("market_cap", Val.rat 0), ("price_change_24h", Val.rat 1),
   ("type", Val.str "cryptocurrency")]

/-- The fourth entity of the stability test, change 0.5. -/
def ent4 : PyDict :=
  [("name", Val.str "Ent4"), ("current_price", Val.rat 50),
   ("market_cap", Val.rat 0), ("price_change_24h", Val.rat qHalf),
   ("type", Val.str "cryptocurrency")]

/-- The financial domain with percent changes [12, -11, 1, 0.5]. -/
def fd3 : List (String × PyDict) :=
  [("E1-USD", ent1), ("E2-USD", ent2), ("E3-USD", ent3), ("E4-USD", ent4)]

/-- A one-entity financial domain whose single entity moves by 0
percent, so the financial branch generates exactly the
market-sentiment insight. -/
def ent9 : PyDict :=
  [("name", Val.str "Gamma"), ("current_price", Val.rat 50),
   ("market_cap", Val.rat 0), ("price_change_24h", Val.rat 0)]

/-- The financial domain holding only ent9. -/
def fd9 : List (String × PyDict) := [("GAMMA-USD", ent9)]

/-- A one-domain universe for the concrete search check. -/
def uW : Universe := [("news", [("TechCrunch", [("url", Val.str "u")])])]

/-- The explicitly reduced constant q001 equals one hundredth. -/
theorem q001_eq : q001 = 1 / 100 := by
  rw [q001, Rat.mk'_eq_divInt]
  norm_num [Rat.divInt_eq_div]

/-- The explicitly reduced constant qHalf equals one half. -/
theorem qHalf_eq : qHalf = 1 / 2 := by
  rw [qHalf, Rat.mk'_eq_divInt]
  norm_num [Rat.divInt_eq_div]

/-- Rounding the integer 12 to one decimal place returns it. -/
theorem pyRound1_twelve : pyRound1 12 = 12 := by
  norm_num [pyRound1, pyRoundInt, ratFloor]

/-- Rounding the integer -11 to one decimal place returns it. -/
theorem pyRound1_neg_eleven : pyRound1 (-11) = -11 := by
  norm_num [pyRound1, pyRoundInt, ratFloor]

/-- A conditional singleton has length at most one. -/
theorem length_ite_singleton {c : Prop} [Decidable c] (x : PyDict) :
    (if c then ([] : List PyDict) else [x]).length ≤ 1 := by
  split <;> simp

/-- The financial branch builds at most seven insight records. -/
theorem financialList_length_le (fd : List (String × PyDict)) (t : String)
    (frac : ℚ) : (App.financialList fd t frac).length ≤ 7 := by
  simp only [App.financialList, List.length_append, List.length_singleton]
  split_ifs <;> simp

/-- A successful generation cycle produces at most eight insight
records (at most seven financial ones plus the summary). -/
theorem insightsCore_ok_length (u : Universe) (t : String) (l : List PyDict)
    (h : App.insightsCore u t = Except.ok l) : l.length ≤ 8 := by
  simp only [App.insightsCore, App.financialInsights] at h
  split at h
  · cases h
    simp
  · split at h
    · cases h
    · rename_i fin heq
      cases h
      split at heq
      · cases heq
      · cases heq
        simp only [List.length_append, List.length_singleton]
        exact Nat.add_le_add_right (financialList_length_le _ _ _) 1

/-- C10: the market-sentiment division total_positive divided by
len(financial_data) is evaluated only under the guard that the
financial domain is non-empty, so the division-by-zero branch of the
generation body is unreachable: for every universe the try-block body
of _generate_autonomous_insights succeeds. -/
theorem c10_sentiment_division_unreachable (u : Universe) (t : String) :
    ∃ l, App.insightsCore u t = Except.ok l := by
  simp only [App.insightsCore, App.financialInsights]
  split
  · exact ⟨_, rfl⟩
  · rename_i hne
    have hlen : ((univGet u "financial").length : ℚ) ≠ 0 := by
      have h0 : univGet u "financial" ≠ [] := by
        simpa [List.isEmpty_iff] using hne
      exact_mod_cast fun hz =>
        h0 (List.length_eq_zero.mp (by exact_mod_cast hz))
    rw [pyDiv, if_neg hlen]
    exact ⟨_, rfl⟩

/-- C1 (amended): after any generation cycle the insight list holds at
most 23 records (the trim threshold 15 plus at most 8 appends of one
cycle); and whenever the cycle trims (the incoming list holds more
than 15 records), the retained old insights are exactly the most
recent 8, a suffix of the incoming list in its original append order,
placed before the insights freshly appended by this cycle. -/
theorem c1_insight_cap_and_trim (u : Universe) (t : String)
    (ins : List PyDict) :
    (App.generate_autonomous_insights u t ins).length ≤ 23 ∧
    (15 < ins.length →
      (pyLastN 8 ins).length = 8 ∧
      ins = ins.take (ins.length - 8) ++ pyLastN 8 ins ∧
      ∃ fresh, App.generate_autonomous_insights u t ins =
        pyLastN 8 ins ++ fresh) := by
  constructor
  · simp only [App.generate_autonomous_insights]
    have htrim : (if ins.length > 15 then pyLastN 8 ins else ins).length ≤ 15 := by
      split
      · simp only [pyLastN, List.length_drop]
        omega
      · omega
    split
    · rename_i l hc
      have := insightsCore_ok_length u t l hc
      simp only [List.length_append]
      omega
    · simp only [List.length_append, List.length_singleton]
      omega
  · intro h
    refine ⟨?_, ?_, ?_⟩
    · simp only [pyLastN, List.length_drop]
      omega
    · exact (List.take_append_drop (ins.length - 8) ins).symm
    · simp only [App.generate_autonomous_insights, if_pos h]
      split
      · exact ⟨_, rfl⟩
      · exact ⟨_, rfl⟩

/-- C1 witness: a concrete sixteen-record list is over the trim
threshold, and a cycle on the empty universe keeps exactly the last
eight of it, in order, before the fresh insights. -/
theorem c1_witness :
    (pyLastN 8 (List.replicate 16 ([] : PyDict))).length = 8 ∧
    List.replicate 16 ([] : PyDict) =
      (List.replicate 16 ([] : PyDict)).take
        ((List.replicate 16 ([] : PyDict)).length - 8) ++
      pyLastN 8 (List.replicate 16 ([] : PyDict)) ∧
    ∃ fresh, App.generate_autonomous_insights [] "t"
        (List.replicate 16 ([] : PyDict)) =
      pyLastN 8 (List.replicate 16 ([] : PyDict)) ++ fresh :=
  (c1_insight_cap_and_trim [] "t" (List.replicate 16 [])).2 (by decide)

/-- C1 counterexample: with the two-entity financial domain of u7,
every cycle appends exactly seven insights, so after three cycles
from an empty list the insight list holds 21 records, exceeding the
cap of 15 to 20 stated by the claim (no trim has fired yet, because
the list held 14 records, not more than 15, when the third cycle
started). -/
theorem c1_counterexample :
    (App.generate_autonomous_insights u7 "t"
      (App.generate_autonomous_insights u7 "t"
        (App.generate_autonomous_insights u7 "t" []))).length = 21 ∧
    20 < (App.generate_autonomous_insights u7 "t"
      (App.generate_autonomous_insights u7 "t"
        (App.generate_autonomous_insights u7 "t" []))).length := by
  constructor <;> decide

/-- C2: when all three discovery routines fail during bootstrap, the
construction of UniverseDataExplorer still completes (the modelled
constructor is total, mirroring the catch-all try blocks), the total
entity count is 0, the status snapshot reports an empty universe with
zero discoveries and zero insights, the search operation returns an
empty result mapping with zero total matches, and the insights read
returns an empty list. -/
theorem c2_bootstrap_all_failures (e1 e2 e3 : String) (t0 : ℚ)
    (t term : String) :
    get_total_entities (Niverse.mkExplorer (Except.error e1)
      (Except.error e2) (Except.error e3) t0).data_universe = 0 ∧
    (Niverse.mkExplorer (Except.error e1) (Except.error e2)
      (Except.error e3) t0).data_universe = [] ∧
    (Niverse.mkExplorer (Except.error e1) (Except.error e2)
      (Except.error e3) t0).autonomous_insights = [] ∧
    get_universe_status (Niverse.mkExplorer (Except.error e1)
        (Except.error e2) (Except.error e3) t0).data_universe
      (Niverse.mkExplorer (Except.error e1) (Except.error e2)
        (Except.error e3) t0).autonomous_insights
      (Niverse.mkExplorer (Except.error e1) (Except.error e2)
        (Except.error e3) t0).exploration_state t =
      ⟨[], 0, 0, ⟨0, 0, t0⟩, t⟩ ∧
    universal_search (Niverse.mkExplorer (Except.error e1)
      (Except.error e2) (Except.error e3) t0).data_universe term t =
      ⟨term, [], 0, t⟩ ∧
    get_recent_insights (Niverse.mkExplorer (Except.error e1)
      (Except.error e2) (Except.error e3) t0).autonomous_insights = [] :=
  ⟨rfl, rfl, rfl, rfl, rfl, rfl⟩

/-- C3: on the four-entity financial domain with percent changes
[12, -11, 1, 0.5], the classification loop of the refresh puts
exactly the first entity in the gainers list and exactly the second
in the losers list, and the spec-modelled stability count (absolute
change below the low threshold) counts exactly the remaining two
entities. -/
theorem c3_gainer_loser_stable :
    App.gainersOf fd3 = [⟨"Ent1", "E1-USD", 12, 50⟩] ∧
    App.losersOf fd3 = [⟨"Ent2", "E2-USD", -11, 50⟩] ∧
    stableCount fd3 = 2 := by
  refine ⟨?_, ?_, by decide⟩
  · rw [show App.gainersOf fd3 =
      [⟨"Ent1", "E1-USD", pyRound1 12, 50⟩] from rfl, pyRound1_twelve]
  · rw [show App.losersOf fd3 =
      [⟨"Ent2", "E2-USD", pyRound1 (-11), 50⟩] from rfl, pyRound1_neg_eleven]

/-- C5: the refresh operation autonomous_universe_exploration of
src/niverse_explorer.py leaves every domain mapping of the universe
unchanged (it takes no upstream input at all: its only inputs are the
cached state, the formatted timestamp and the clock reading), leaves
the history and pattern memories and the universe_size field
unchanged, only appends to the insight list, and overwrites exactly
total_discoveries (with the unchanged entity total) and last_update
(with the clock reading). -/
theorem c5_refresh_frame (s : Niverse.ExplorerState) (t : String) (now : ℚ) :
    (Niverse.autonomous_universe_exploration s t now).1.data_universe =
      s.data_universe ∧
    (Niverse.autonomous_universe_exploration s t now).1.exploration_history =
      s.exploration_history ∧
    (Niverse.autonomous_universe_exploration s t now).1.pattern_memory =
      s.pattern_memory ∧
    (Niverse.autonomous_universe_exploration s t now).1.world_pattern_memory =
      s.world_pattern_memory ∧
    (Niverse.autonomous_universe_exploration s t now).1.exploration_state.universe_size =
      s.exploration_state.universe_size ∧
    (Niverse.autonomous_universe_exploration s t now).1.exploration_state.total_discoveries =
      get_total_entities s.data_universe ∧
    (Niverse.autonomous_universe_exploration s t now).1.exploration_state.last_update =
      now ∧
    ∃ fresh, (Niverse.autonomous_universe_exploration s t now).1.autonomous_insights =
      s.autonomous_insights ++ fresh := by
  refine ⟨rfl, rfl, rfl, rfl, rfl, rfl, rfl, ?_⟩
  simp only [Niverse.autonomous_universe_exploration,
    Niverse.generate_autonomous_insights]
  split_ifs <;> simp

/-- Serializing any list of stored insights yields records whose key
lists are all exactly category, description, timestamp, details. -/
theorem map_serializeInsight_keys (l : List PyDict) :
    l.map (fun j => (serializeInsight j).map Prod.fst) =
      List.replicate l.length
        ["category", "description", "timestamp", "details"] := by
  induction l with
  | nil => rfl
  | cons a tl ih => simp [ih, List.replicate_succ, serializeInsight]

/-- C6: the insights read operation with its default limit 10 returns
the serialization of a suffix (most recent, append order preserved)
of the stored list, of length min 10 len, hence at most 10 records,
each carrying exactly the keys category, description, timestamp and
details. -/
theorem c6_recent_insights_shape (l : List PyDict) :
    (get_recent_insights l).length = min 10 l.length ∧
    (get_recent_insights l).length ≤ 10 ∧
    l = l.take (l.length - 10) ++ pyLastN 10 l ∧
    get_recent_insights l = (pyLastN 10 l).map serializeInsight ∧
    (get_recent_insights l).map (fun j => j.map Prod.fst) =
      List.replicate (min 10 l.length)
        ["category", "description", "timestamp", "details"] := by
  have hlen : (pyLastN 10 l).length = min 10 l.length := by
    simp only [pyLastN, List.length_drop]
    omega
  refine ⟨?_, ?_, ?_, rfl, ?_⟩
  · simpa [get_recent_insights] using hlen
  · simp only [get_recent_insights, List.length_map, hlen]
    omega
  · exact (List.take_append_drop (l.length - 10) l).symm
  · simp only [get_recent_insights, List.map_map]
    rw [show (List.map Prod.fst ∘ serializeInsight) =
      (fun j : PyDict => (serializeInsight j).map Prod.fst) from rfl]
    rw [map_serializeInsight_keys, hlen]

/-- C7: the GET /explore handler returns HTTP status 200 for every
outcome of the refresh; a returned result r becomes the success
payload carrying r, and a raised exception is caught and becomes the
error payload carrying its message, never an HTTP error status. -/
theorem c7_explore_handler (o : Except String ExplorationResults) :
    (trigger_exploration o).status = 200 ∧
    (∀ r, o = Except.ok r →
      (trigger_exploration o).body = ExploreBody.success r) ∧
    (∀ e, o = Except.error e →
      (trigger_exploration o).body = ExploreBody.failure e) := by
  refine ⟨?_, ?_, ?_⟩ <;> cases o <;> simp [trigger_exploration]

/-- C7 witness: a concrete successful refresh outcome is wrapped as a
success payload with status 200, by the handler theorem itself. -/
theorem c7_witness :
    (trigger_exploration (Except.ok ⟨0, 0, 3, "t"⟩)).status = 200 ∧
    (trigger_exploration (Except.ok ⟨0, 0, 3, "t"⟩)).body =
      ExploreBody.success ⟨0, 0, 3, "t"⟩ :=
  ⟨(c7_explore_handler (Except.ok ⟨0, 0, 3, "t"⟩)).1,
   (c7_explore_handler (Except.ok ⟨0, 0, 3, "t"⟩)).2.1 ⟨0, 0, 3, "t"⟩ rfl⟩

/-- C8: in src/app.py the def of _generate_autonomous_insights sits at
module level, not among the methods of UniverseDataExplorer, and the
reader functions (_universal_search, get_universe_status,
get_recent_insights, get_total_entities) are nested inside it, so none
of them is a class method; consequently the attribute lookup of
get_total_entities performed at the end of _bootstrap_universe raises
AttributeError, the construction of the explorer fails, and the
module-level initialization of src/app.py never completes. -/
theorem c8_app_class_structure_broken :
    "_generate_autonomous_insights" ∉ App.classMethodNames ∧
    "_generate_autonomous_insights" ∈ App.moduleLevelDefNames ∧
    "_universal_search" ∈ App.nestedInGenerateNames ∧
    "get_universe_status" ∈ App.nestedInGenerateNames ∧
    "get_recent_insights" ∈ App.nestedInGenerateNames ∧
    "get_total_entities" ∈ App.nestedInGenerateNames ∧
    "_universal_search" ∉ App.classMethodNames ∧
    "get_universe_status" ∉ App.classMethodNames ∧
    "get_recent_insights" ∉ App.classMethodNames ∧
    "get_total_entities" ∉ App.classMethodNames ∧
    App.constructExplorer = Except.error
      ("AttributeError: UniverseDataExplorer object has no attribute " ++
        "get_total_entities") ∧
    App.moduleInit = Except.error
      ("AttributeError: UniverseDataExplorer object has no attribute " ++
        "get_total_entities") := by
  decide

/-- Every character list is a prefix of itself. -/
theorem pyStartsWith_self (l : List Char) : pyStartsWith l l = true := by
  induction l with
  | nil => rfl
  | cons c tl ih => simp [pyStartsWith, ih]

/-- The Python substring test succeeds on the string itself. -/
theorem pyIn_self (l : List Char) : pyIn l l = true := by
  cases l with
  | nil => rfl
  | cons c tl => simp [pyIn, pyStartsWith_self]

/-- An entity whose key equals the search term produces a name match
carrying its attribute record. -/
theorem matchEntity_self (term : String) (d : PyDict) :
    matchEntity (pyLower term) term d =
      some ⟨term, "name", MatchPayload.details d⟩ := by
  simp [matchEntity, pyIn_self]

/-- Unfolding equation of the search fold step. -/
theorem searchStep_eq (sl : List Char)
    (acc : List (String × List SearchMatch) × ℕ)
    (p : String × List (String × PyDict)) :
    searchStep sl acc p =
      if (domainMatches sl p.2).isEmpty then acc
      else (acc.1 ++ [(p.1, domainMatches sl p.2)],
            acc.2 + (domainMatches sl p.2).length) := rfl

/-- The accumulator invariant of the search fold: the fold extends the
accumulated domain list with the non-empty domain match lists and adds
the sum of their lengths to the running total. -/
theorem search_foldl (sl : List Char) (u : Universe) :
    ∀ (a : List (String × List SearchMatch)) (n : ℕ),
      u.foldl (searchStep sl) (a, n) =
        (a ++ searchRBD sl u,
         n + ((searchRBD sl u).map (fun q => q.2.length)).sum) := by
  induction u with
  | nil => intro a n; simp [searchRBD]
  | cons p rest ih =>
    intro a n
    rw [List.foldl_cons, searchStep_eq]
    by_cases h : (domainMatches sl p.2).isEmpty
    · have h0 : domainMatches sl p.2 = [] := List.isEmpty_iff.mp h
      rw [if_pos h, ih]
      simp [searchRBD, List.filterMap_cons, h0]
    · have h0 : ¬ domainMatches sl p.2 = [] := by
        simpa [List.isEmpty_iff] using h
      rw [if_neg h, ih]
      simp only [searchRBD, List.filterMap_cons, if_neg h, List.map_cons,
        List.sum_cons, List.append_assoc, List.singleton_append,
        Prod.mk.injEq]
      exact ⟨trivial, by omega⟩

/-- The search result is the filtered domain mapping together with the
sum of its match-list lengths. -/
theorem universal_search_eq (u : Universe) (term t : String) :
    universal_search u term t =
      ⟨term, searchRBD (pyLower term) u,
       ((searchRBD (pyLower term) u).map (fun q => q.2.length)).sum, t⟩ := by
  simp only [universal_search]
  rw [search_foldl]
  simp

/-- C4: if the search term occurs as a full entity key in domain D,
then the result contains, in the match list recorded for D, a name
match for that entity; and in every search result the total_matches
counter equals the sum of the lengths of the per-domain match lists. -/
theorem c4_search_name_match_and_total (u : Universe) (term t D : String)
    (dents : List (String × PyDict)) (details : PyDict)
    (hD : (D, dents) ∈ u) (he : (term, details) ∈ dents) :
    (∃ dm, (D, dm) ∈ (universal_search u term t).results_by_domain ∧
      (⟨term, "name", MatchPayload.details details⟩ : SearchMatch) ∈ dm) ∧
    (universal_search u term t).total_matches =
      ((universal_search u term t).results_by_domain.map
        (fun q => q.2.length)).sum := by
  have hmem : (⟨term, "name", MatchPayload.details details⟩ : SearchMatch) ∈
      domainMatches (pyLower term) dents :=
    List.mem_filterMap.mpr ⟨(term, details), he, matchEntity_self term details⟩
  have hne : ¬ (domainMatches (pyLower term) dents).isEmpty = true := by
    intro hh
    rw [List.isEmpty_iff] at hh
    rw [hh] at hmem
    cases hmem
  have hrbd : (D, domainMatches (pyLower term) dents) ∈
      searchRBD (pyLower term) u :=
    List.mem_filterMap.mpr ⟨(D, dents), hD, by rw [if_neg hne]⟩
  rw [universal_search_eq]
  exact ⟨⟨domainMatches (pyLower term) dents, hrbd, hmem⟩, rfl⟩

/-- C4 witness: searching the concrete universe uW for the exact
entity key TechCrunch returns a name match for it in the news match
list, and the total equals the sum of the per-domain list lengths. -/
theorem c4_witness :
    (∃ dm, ("news", dm) ∈
        (universal_search uW "TechCrunch" "t").results_by_domain ∧
      (⟨"TechCrunch", "name",
        MatchPayload.details [("url", Val.str "u")]⟩ : SearchMatch) ∈ dm) ∧
    (universal_search uW "TechCrunch" "t").total_matches =
      ((universal_search uW "TechCrunch" "t").results_by_domain.map
        (fun q => q.2.length)).sum :=
  c4_search_name_match_and_total uW "TechCrunch" "t" "news"
    [("TechCrunch", [("url", Val.str "u")])] [("url", Val.str "u")]
    (by decide) (by decide)

/-- Membership in a conditional singleton forces equality with its
element. -/
theorem eq_of_mem_ite_singleton {c : Prop} [Decidable c] {x i : PyDict}
    (h : i ∈ (if c then ([] : List PyDict) else [x])) : i = x := by
  split at h
  · cases h
  · simpa using h

/-- C9 (amended): every insight built by the financial branch of
_generate_autonomous_insights in src/app.py stores its recommendation
under the key actionable, and its structured payload under the key
data except for the market-sentiment insight, which stores it under
the key sentiment; none stores anything under the key details, so the
record produced for it by get_recent_insights carries the empty dict
as details and no actionable key at all. -/
theorem c9_details_lost_actionable_dropped (fd : List (String × PyDict))
    (t : String) (frac : ℚ) (i : PyDict)
    (hi : i ∈ App.financialList fd t frac) :
    (lookupV i "actionable").isSome = true ∧
    ((lookupV i "data").isSome = true ∨
      (lookupV i "sentiment").isSome = true) ∧
    lookupV i "details" = none ∧
    lookupV (serializeInsight i) "details" = some Val.emptyDict ∧
    lookupV (serializeInsight i) "actionable" = none := by
  simp only [App.financialList, List.append_assoc, List.mem_append,
    List.mem_singleton] at hi
  rcases hi with h | h | h | h | h | h | h
  · cases eq_of_mem_ite_singleton h
    exact ⟨rfl, Or.inl rfl, rfl, rfl, rfl⟩
  · cases eq_of_mem_ite_singleton h
    exact ⟨rfl, Or.inl rfl, rfl, rfl, rfl⟩
  · cases eq_of_mem_ite_singleton h
    exact ⟨rfl, Or.inl rfl, rfl, rfl, rfl⟩
  · cases eq_of_mem_ite_singleton h
    exact ⟨rfl, Or.inl rfl, rfl, rfl, rfl⟩
  · cases eq_of_mem_ite_singleton h
    exact ⟨rfl, Or.inl rfl, rfl, rfl, rfl⟩
  · cases h
    exact ⟨rfl, Or.inr rfl, rfl, rfl, rfl⟩
  · cases eq_of_mem_ite_singleton h
    exact ⟨rfl, Or.inl rfl, rfl, rfl, rfl⟩

/-- C9 counterexample: on the one-entity domain fd9 the financial
branch builds exactly the market-sentiment insight, whose keys are
type, description, actionable, sentiment and timestamp: it carries no
data key at all, so the claim that every financial insight stores its
structured payload under the key data fails on it. -/
theorem c9_counterexample :
    (∃ frac, App.financialInsights fd9 "t0" =
      Except.ok (App.financialList fd9 "t0" frac)) ∧
    (App.financialList fd9 "t0" 0).map (fun i => i.map Prod.fst) =
      [["type", "description", "actionable", "sentiment", "timestamp"]] ∧
    (App.financialList fd9 "t0" 0).map
      (fun i => (lookupV i "data").isNone) = [true] ∧
    (App.financialList fd9 "t0" 0).map
      (fun i => (lookupV i "sentiment").isSome) = [true] :=
  ⟨⟨_, rfl⟩, by decide, by decide, by decide⟩

/-- C9 witness: the amended statement applied to the market-sentiment
insight generated for the concrete domain fd9. -/
theorem c9_witness :
    (lookupV (App.mkSentimentInsight "BEARISH" (0 * 100) 0 0 "t0")
      "actionable").isSome = true ∧
    ((lookupV (App.mkSentimentInsight "BEARISH" (0 * 100) 0 0 "t0")
        "data").isSome = true ∨
      (lookupV (App.mkSentimentInsight "BEARISH" (0 * 100) 0 0 "t0")
        "sentiment").isSome = true) ∧
    lookupV (App.mkSentimentInsight "BEARISH" (0 * 100) 0 0 "t0")
      "details" = none ∧
    lookupV (serializeInsight
      (App.mkSentimentInsight "BEARISH" (0 * 100) 0 0 "t0"))
      "details" = some Val.emptyDict ∧
    lookupV (serializeInsight
      (App.mkSentimentInsight "BEARISH" (0 * 100) 0 0 "t0"))
      "actionable" = none :=
  c9_details_lost_actionable_dropped fd9 "t0" 0 _
    (show _ ∈ [App.mkSentimentInsight "BEARISH" ((0 : ℚ) * 100) 0 0 "t0"]
      from List.mem_singleton.mpr rfl)
